/-
Verification of the amplitude-association engine (associate_amps).

This file gives a shallow embedding, in Lean 4, of the core logic of
`associate_amps/amps.py` and `associate_amps/amps_db.py`:
the four-table data model (event / station / channel / pgm), the
ingestion merge `insert_amps`, the spatio-temporal join `associate`,
the per-event sweep `associate_amps`, the retention sweep
`clean_database`, and the event upsert `insert_event`.

Modelling conventions:
- Datetimes are integers: milliseconds since the civil epoch, obtained
  from calendar fields through `toMillis` (the standard days-from-civil
  algorithm).  `timedelta(seconds = s)` is `s * 1000`.
- Numeric values (latitudes, magnitudes, peak ground motions) are
  rationals; the float arithmetic the source performs on them
  (division by 9.81, comparisons) is exact on the inputs considered.
- `geodetic_distance` is a float routine built from numpy
  transcendental functions; it is modelled as an explicit function
  parameter `dist` of the association pass, so every theorem about the
  association predicate holds for the actual great-circle routine as a
  special case.
- The SQLAlchemy session is a passed-around `DB` value: tables are
  lists, `session.commit()` is the successive state, autoincrement
  primary keys come from `next*Id` counters, and a bulk
  `query(...).delete()` / `query(...).update(...)` removes / rewrites
  exactly the rows of the one table it is issued against (bulk
  operations do not run the ORM relationship cascades; those fire only
  for `session.delete(obj)`, which the code under verification never
  calls).
- Exceptions propagate as an `error` outcome carrying the database
  state already committed at the raise point.  In particular the query
  at amps.py line 304-305 filters on `Station.station_id`, an
  attribute that does not exist on the `Station` model, so reaching it
  raises `AttributeError`; the embedding reproduces that as an error
  outcome with the state unchanged.
- Python string-to-number conversions are modelled for well-formed,
  zero-padded inputs: `strptime`'s tolerance for unpadded fields,
  whitespace tolerance of `int()` / `float()`, and exponent literals
  are not modelled; none of the documents considered here use them.
-/
import Mathlib

set_option autoImplicit false
attribute [local semireducible] Rat.inv Rat.mul Rat.add Rat.sub

namespace AmpAssoc

/-! ## Data model (amps_db.py)

One record per table row.  `Station.event_id` is the nullable
association column: `none` models SQL NULL, `some 0` is the sentinel
the ingestion writes for "not associated yet", `some e` an association
with the event of primary key `e`. -/

structure Event where
  id : Nat
  eventid : String
  netid : String
  time : Int
  lat : ℚ
  lon : ℚ
  depth : ℚ
  magnitude : ℚ
  locstring : String
  deriving DecidableEq

structure Station where
  id : Nat
  event_id : Option Nat
  timestamp : Int
  lat : ℚ
  lon : ℚ
  network : String
  name : String
  code : String
  loadtime : Int
  deriving DecidableEq

structure Channel where
  id : Nat
  station_id : Nat
  channel : String
  loc : String
  deriving DecidableEq

structure PGM where
  id : Nat
  channel_id : Nat
  imt : String
  value : ℚ
  deriving DecidableEq

structure DB where
  events : List Event
  stations : List Station
  channels : List Channel
  pgms : List PGM
  nextEventId : Nat
  nextStationId : Nat
  nextChannelId : Nat
  nextPgmId : Nat
  deriving DecidableEq

def DB.empty : DB :=
  { events := [], stations := [], channels := [], pgms := [],
    nextEventId := 1, nextStationId := 1, nextChannelId := 1, nextPgmId := 1 }

/-- Well-formedness of a database state: every row's primary key is
below the table's autoincrement counter (so a freshly assigned key is
new), and primary keys are unique per table. -/
def DB.WF (db : DB) : Prop :=
  (∀ e ∈ db.events, e.id < db.nextEventId) ∧
  (∀ s ∈ db.stations, s.id < db.nextStationId) ∧
  (∀ c ∈ db.channels, c.id < db.nextChannelId) ∧
  (∀ p ∈ db.pgms, p.id < db.nextPgmId) ∧
  (db.events.map Event.id).Nodup ∧
  (db.stations.map Station.id).Nodup ∧
  (db.channels.map Channel.id).Nodup ∧
  (db.pgms.map PGM.id).Nodup

instance (db : DB) : Decidable db.WF := by
  unfold DB.WF; infer_instance

/-! ## Constants (amps.py) -/

def TMIN : Int := 60
def TMAX : Int := 180
def DISTANCE : ℚ := 500
def P_TRAVEL_TIME : ℚ := 21 / 5
def MAX_AMP_AGE : Int := 15
def MAX_EVENT_AGE : Int := 90
def STATION_WINDOW_SECS : Int := 10
def IMTS : List String := ["acc", "vel", "sa", "pga", "pgv"]

/-- Gravitational constant the source divides accelerations by. -/
def gravity : ℚ := 981 / 100

/-! ## Calendar arithmetic

`datetime` values become absolute milliseconds through the standard
civil-calendar conversion; `datetime(...)` range validation is
`validDate`. -/

def isLeap (y : Int) : Bool :=
  (y % 4 == 0 && y % 100 != 0) || (y % 400 == 0)

def daysInMonth (y m : Int) : Int :=
  if m == 2 then (if isLeap y then 29 else 28)
  else if m == 4 || m == 6 || m == 9 || m == 11 then 30
  else 31

def validDate (y mo d h mi s ms : Int) : Bool :=
  1 ≤ y && y ≤ 9999 && 1 ≤ mo && mo ≤ 12 && 1 ≤ d && d ≤ daysInMonth y mo &&
  0 ≤ h && h ≤ 23 && 0 ≤ mi && mi ≤ 59 && 0 ≤ s && s ≤ 59 && 0 ≤ ms && ms ≤ 999

/-- Days since 1970-01-01 of a civil date (years here are positive, so
truncating integer division agrees with floor division). -/
def daysFromCivil (y m d : Int) : Int :=
  let y2 := if m ≤ 2 then y - 1 else y
  let era := (if 0 ≤ y2 then y2 else y2 - 399) / 400
  let yoe := y2 - era * 400
  let mp := (m + 9) % 12
  let doy := (153 * mp + 2) / 5 + d - 1
  let doe := yoe * 365 + yoe / 4 - yoe / 100 + doy
  era * 146097 + doe - 719468

/-- Milliseconds since the epoch of a civil datetime. -/
def toMillis (y mo d h mi s ms : Int) : Int :=
  ((daysFromCivil y mo d) * 86400 + h * 3600 + mi * 60 + s) * 1000 + ms

/-! ## Character-level numeric parsing -/

def digitVal (c : Char) : Option Int :=
  if '0' ≤ c ∧ c ≤ '9' then some (Int.ofNat (c.toNat - 48)) else none

/-- Two fixed decimal digits. -/
def digits2 (a b : Char) : Option Int := do
  let x ← digitVal a
  let y ← digitVal b
  pure (x * 10 + y)

/-- Four fixed decimal digits. -/
def digits4 (a b c d : Char) : Option Int := do
  let x ← digits2 a b
  let y ← digits2 c d
  pure (x * 100 + y)

/-- Value of a nonempty all-digit run, `none` otherwise. -/
def digitsVal : List Char → Option Int
  | [] => none
  | [c] => digitVal c
  | c :: rest => do
    let x ← digitVal c
    let y ← digitsVal rest
    pure (x * 10 ^ rest.length + y)

/-- `int(s)`: optional sign followed by digits. -/
def toIntStr? (s : String) : Option Int :=
  match s.data with
  | '-' :: rest => (digitsVal rest).map (fun n => -n)
  | '+' :: rest => digitsVal rest
  | cs => digitsVal cs

/-- The whole-seconds format `%Y-%m-%dT%H:%M:%S` (19 characters,
nothing left over), range-checked as `datetime` would. -/
def parseWhole : List Char → Option Int
  | [y1, y2, y3, y4, '-', o1, o2, '-', d1, d2, 'T', h1, h2, ':', m1, m2, ':', s1, s2] => do
    let y ← digits4 y1 y2 y3 y4
    let mo ← digits2 o1 o2
    let d ← digits2 d1 d2
    let h ← digits2 h1 h2
    let mi ← digits2 m1 m2
    let s ← digits2 s1 s2
    if validDate y mo d h mi s 0 then pure (toMillis y mo d h mi s 0) else none
  | _ => none

/-- The fractional format `%Y-%m-%dT%H:%M:%S.%f`: the whole-seconds
prefix followed by a dot and one to six fraction digits.  `%f` right
pads to microseconds; the embedding keeps milliseconds. -/
def parseFrac (cs : List Char) : Option Int :=
  match cs.take 19, cs.drop 19 with
  | front, '.' :: frac =>
    if frac.length < 1 ∨ 6 < frac.length then none
    else do
      let base ← parseWhole front
      let f ← digitsVal frac
      pure (base + (f * 10 ^ (6 - frac.length)) / 1000)
  | _, _ => none

/-- `float(s)` on plain decimal literals: optional sign, digits with at
most one dot, at least one digit overall. -/
def parseFloat? (s : String) : Option ℚ :=
  let cs := s.data
  let body : List Char → Option ℚ := fun l =>
    match l.splitOn '.' with
    | [ip] => (digitsVal ip).map (fun n => (n : ℚ))
    | [ip, fp] =>
      if ip.isEmpty && fp.isEmpty then none
      else if ¬ (ip.all Char.isDigit) ∨ ¬ (fp.all Char.isDigit) then none
      else
        let ipv : ℚ := ((digitsVal ip).getD 0 : Int)
        let fpv : ℚ := ((digitsVal fp).getD 0 : Int)
        some (ipv + fpv / (10 : ℚ) ^ fp.length)
    | _ => none
  match cs with
  | '-' :: rest => (body rest).map (fun q => -q)
  | '+' :: rest => body rest
  | _ => body cs

instance {e a : Type} [DecidableEq e] [DecidableEq a] : DecidableEq (Except e a) := fun x y =>
  match x, y with
  | .ok v, .ok w => if h : v = w then .isTrue (by rw [h]) else .isFalse (by simp [h])
  | .error v, .error w => if h : v = w then .isTrue (by rw [h]) else .isFalse (by simp [h])
  | .ok _, .error _ => .isFalse (by simp)
  | .error _, .ok _ => .isFalse (by simp)

/-! ## Amplitude document model

The already-parsed XML tree, restricted to what `insert_amps` reads.
`refChildren` is the `reference.iter()` traversal of the timing
reference subtree in document order; `find` is modelled as the first
node of matching tag.  The station element's mandatory attributes
(`lat`, `lon`, `code`, `name`) are kept pre-extracted; `net` / `netid`
are optional, as in the source's fallback chain. -/

structure RefNode where
  tag : String
  value : Option String
  text : Option String
  deriving DecidableEq

structure PgmElem where
  tag : String
  value : Option String
  period : Option String
  deriving DecidableEq

structure Component where
  name : String
  qual : Option String
  loc : Option String
  pgms : List PgmElem
  deriving DecidableEq

structure StationElem where
  lat : ℚ
  lon : ℚ
  code : String
  name : String
  net : Option String
  netid : Option String
  deriving DecidableEq

structure AmpDoc where
  rootTag : String
  agency : String
  refChildren : List RefNode
  station : StationElem
  components : List Component
  deriving DecidableEq

/-- Time fields collected into `time_dict` while walking the reference
subtree (a field is `some` exactly when its tag occurred; later
occurrences overwrite, as dict assignment does). -/
structure TimeDict where
  year : Option Int := none
  month : Option Int := none
  day : Option Int := none
  hour : Option Int := none
  minute : Option Int := none
  second : Option Int := none
  msec : Option Int := none
  deriving DecidableEq

def TimeDict.isEmptyDict (td : TimeDict) : Bool :=
  td.year.isNone && td.month.isNone && td.day.isNone && td.hour.isNone &&
  td.minute.isNone && td.second.isNone && td.msec.isNone

/-- `int(child.get('value'))`: a missing attribute or an unparsable
string raises (TypeError / ValueError). -/
def intAttr (v : Option String) : Except String Int :=
  match v with
  | none => .error "TypeError: int(None)"
  | some s =>
    match toIntStr? s with
    | none => .error "ValueError: invalid int literal"
    | some i => .ok i

/-- The `for child in reference.iter()` loop (amps.py 205-222):
records whether a PGMTime node was seen and fills `time_dict`. -/
def collectRef : List RefNode → Bool → TimeDict → Except String (Bool × TimeDict)
  | [], hasPgm, td => .ok (hasPgm, td)
  | n :: rest, hasPgm, td =>
    if n.tag == "PGMTime" then collectRef rest true td
    else if n.tag == "year" then do
      let i ← intAttr n.value; collectRef rest hasPgm { td with year := some i }
    else if n.tag == "month" then do
      let i ← intAttr n.value; collectRef rest hasPgm { td with month := some i }
    else if n.tag == "day" then do
      let i ← intAttr n.value; collectRef rest hasPgm { td with day := some i }
    else if n.tag == "hour" then do
      let i ← intAttr n.value; collectRef rest hasPgm { td with hour := some i }
    else if n.tag == "minute" then do
      let i ← intAttr n.value; collectRef rest hasPgm { td with minute := some i }
    else if n.tag == "second" then do
      let i ← intAttr n.value; collectRef rest hasPgm { td with second := some i }
    else if n.tag == "msec" then do
      let i ← intAttr n.value; collectRef rest hasPgm { td with msec := some i }
    else collectRef rest hasPgm td

/-- `datetime.strptime(pgmtime_str[0:19], ...)` with the fractional
format tried first and the whole-seconds format as the fallback
(amps.py 223-232).  Note the truncation to 19 characters happens
before either format is tried. -/
def parsePgmTimeText (s : String) : Except String Int :=
  let cs := s.data.take 19
  match parseFrac cs with
  | some t => .ok t
  | none =>
    match parseWhole cs with
    | some t => .ok t
    | none => .error "ValueError: time data does not match format"

/-- The record timestamp (amps.py 203-242): `.ok none` is the soft
skip ("No time data"), `.ok (some t)` the timestamp in milliseconds,
`.error` a propagating exception. -/
def computePgmDate (doc : AmpDoc) : Except String (Option Int) := do
  let (hasPgm, td) ← collectRef doc.refChildren false {}
  if hasPgm then
    match (doc.refChildren.find? (fun n => n.tag == "PGMTime")).bind RefNode.text with
    | none => .error "TypeError: NoneType is not subscriptable"
    | some s => do
      let t ← parsePgmTimeText s
      pure (some t)
  else
    if td.isEmptyDict then pure none
    else
      match td.year, td.month, td.day, td.hour, td.minute, td.second with
      | some y, some mo, some d, some h, some mi, some s =>
        if validDate y mo d h mi s 0 then pure (some (toMillis y mo d h mi s 0))
        else .error "ValueError: invalid datetime"
      | _, _, _, _, _, _ => .error "KeyError: missing time field"

/-! ## Station search and merge (insert_amps) -/

/-- Network resolution (amps.py 253-258): `net`, else `netid`, else
the document's agency attribute. -/
def effNetwork (doc : AmpDoc) : String :=
  match doc.station.net with
  | some n => n
  | none =>
    match doc.station.netid with
    | some n => n
    | none => doc.agency

/-- The station window query (amps.py 265-271): same network and code,
timestamp strictly inside `pgmdate ± STATION_WINDOW_SECS`. -/
def stationCandidates (db : DB) (network code : String) (pgmdate : Int) : List Station :=
  db.stations.filter (fun s =>
    s.network == network && s.code == code &&
    decide (pgmdate - STATION_WINDOW_SECS * 1000 < s.timestamp) &&
    decide (s.timestamp < pgmdate + STATION_WINDOW_SECS * 1000))

/-- The best-match loop (amps.py 276-282): smallest absolute time
difference wins, the first row encountered wins ties (strict
comparison against the running best). -/
def stationMatch (db : DB) (network code : String) (pgmdate : Int) : Option Nat :=
  let pick := (stationCandidates db network code pgmdate).foldl
    (fun (best : Option (Nat × Int)) s =>
      let dtime := |s.timestamp - pgmdate|
      match best with
      | none => some (s.id, dtime)
      | some (_, bt) => if dtime < bt then some (s.id, dtime) else best)
    none
  pick.map Prod.fst

/-- One measurement element of the pgm loop (amps.py 351-372), already
threaded through the IMT filter, value parse, spectral relabelling,
legacy-name remap, unit normalization and existing-type dedup.
`existing` is the `existing_pgms` key set; acc is the pgm list built
so far. -/
def buildPgmList (existing : List String) : List PgmElem → List (String × ℚ) →
    Except String (List (String × ℚ))
  | [], acc => .ok acc
  | e :: rest, acc =>
    if ¬ (IMTS.contains e.tag) then buildPgmList existing rest acc
    else
      match e.value with
      | none => .error "TypeError: float(None)"
      | some vs =>
        match parseFloat? vs with
        | none => buildPgmList existing rest acc
        | some v =>
          let step : Except String (String × ℚ) :=
            if e.tag == "sa" then
              match e.period with
              | none => .error "AttributeError: NoneType has no replace"
              | some p => .ok ("p" ++ "sa" ++ String.mk (p.data.filter (fun c => c ≠ '.')),
                               v / gravity)
            else .ok (e.tag, v)
          match step with
          | .error msg => .error msg
          | .ok (imt1, v1) =>
            let imt2 := if imt1 == "acc" then "pga" else if imt1 == "vel" then "pgv" else imt1
            let v2 := if imt2 == "pga" then v1 / gravity else v1
            if existing.contains imt2 then buildPgmList existing rest acc
            else buildPgmList existing rest (acc ++ [(imt2, v2)])

/-- Python `dict(rows)` lookup: the last binding of a key wins. -/
def dictLookup (pairs : List (String × Nat)) (k : String) : Option Nat :=
  (pairs.reverse.find? (fun p => p.fst == k)).map Prod.snd

/-- Append a run of PGM rows with fresh autoincrement keys
(`bulk_save_objects` + commit). -/
def addPgms (db : DB) (cid : Nat) (plist : List (String × ℚ)) : DB :=
  plist.foldl (fun acc p =>
    { acc with pgms := acc.pgms ++ [{ id := acc.nextPgmId, channel_id := cid,
                                      imt := p.fst, value := p.snd }],
               nextPgmId := acc.nextPgmId + 1 }) db

/-- `loc = channel.get('loc')` with the `'--'` default for a missing
or empty attribute (amps.py 324-326). -/
def channelLoc (c : Component) : String :=
  match c.loc with
  | none => "--"
  | some l => if l == "" then "--" else l

/-- Commit one new Channel row with the next autoincrement key
(amps.py 332-334). -/
def addChannel (db : DB) (sid : Nat) (c : Component) : DB :=
  { db with channels := db.channels ++ [{ id := db.nextChannelId, station_id := sid,
                                          channel := c.name, loc := channelLoc c }],
            nextChannelId := db.nextChannelId + 1 }

/-- The bulk delete `query(Channel).filter(Channel.id == best_cid)`
(amps.py 384): removes only the channel row itself. -/
def delChannel (db : DB) (cid : Nat) : DB :=
  { db with channels := db.channels.filter (fun ch => ch.id ≠ cid) }

/-- The component loop (amps.py 309-388).  `sid` is the station the
channels attach to, `existingCh` the name-to-key dict of pre-existing
channels, `k` the running `channels_inserted` counter.  Returns the
state and counter after the loop, or the error outcome with the state
committed so far. -/
def procComponents (sid : Nat) (existingCh : List (String × Nat)) :
    List Component → DB → Int → Except (DB × String) (DB × Int)
  | [], db, k => .ok (db, k)
  | c :: rest, db, k =>
    let iqual : Int :=
      match c.qual with
      | none => 0
      | some q => (toIntStr? q).getD 0
    if 4 < iqual then procComponents sid existingCh rest db k
    else
      match dictLookup existingCh c.name with
      | some cid =>
        let existingPgms := (db.pgms.filter (fun p => p.channel_id == cid)).map PGM.imt
        match buildPgmList existingPgms c.pgms [] with
        | .error msg => .error (db, msg)
        | .ok plist =>
          if plist.length > 0 then
            procComponents sid existingCh rest (addPgms db cid plist) k
          else
            procComponents sid existingCh rest db k
      | none =>
        let cid := db.nextChannelId
        let db1 := addChannel db sid c
        match buildPgmList [] c.pgms [] with
        | .error msg => .error (db1, msg)
        | .ok plist =>
          if plist.length > 0 then
            procComponents sid existingCh rest (addPgms db1 cid plist) (k + 1)
          else
            procComponents sid existingCh rest (delChannel db1 cid) ((k + 1) - 1)

/-- The new unassociated Station row (amps.py 285-293): sentinel
`event_id = 0`, the record's coordinates and codes, `loadtime`
stamped `utcnow`. -/
def newStation (now : Int) (doc : AmpDoc) (pgmdate : Int) (sid : Nat) : Station :=
  { id := sid, event_id := some 0, timestamp := pgmdate,
    lat := doc.station.lat, lon := doc.station.lon,
    network := effNetwork doc, name := doc.station.name,
    code := doc.station.code, loadtime := now }

/-- `session.add(station); session.commit()` with key assignment. -/
def addStation (db : DB) (st : Station) : DB :=
  { db with stations := db.stations ++ [st], nextStationId := db.nextStationId + 1 }

/-- Outcome of one `insert_amps` call: normal return, the soft skip of
a record with no time data, or a propagating exception together with
the database state already committed when it was raised. -/
inductive InsertResult where
  | ok (db : DB)
  | skipped (db : DB)
  | error (db : DB) (msg : String)
  deriving DecidableEq

/-- `insert_amps` (amps.py 176-396) on an already-parsed document.
`now` is `datetime.utcnow()`, stamped as the new station's load time.
When the window query finds an existing station the source next runs
`session.query(Channel.channel, Channel.id).filter(Station.station_id
== best_sid)` (amps.py 304-305); `Station` has no `station_id`
attribute, so that path raises `AttributeError` before touching any
row. -/
def insert_amps (now : Int) (doc : AmpDoc) (db : DB) : InsertResult :=
  if doc.rootTag ≠ "amplitudes" then
    .error db "Exception: not an amplitude XML file"
  else
    match computePgmDate doc with
    | .error msg => .error db msg
    | .ok none => .skipped db
    | .ok (some pgmdate) =>
      let network := effNetwork doc
      match stationMatch db network doc.station.code pgmdate with
      | some _ => .error db "AttributeError: type object Station has no attribute station_id"
      | none =>
        let sid := db.nextStationId
        let db1 := addStation db (newStation now doc pgmdate sid)
        match procComponents sid [] doc.components db1 0 with
        | .error (dbE, msg) => .error dbE msg
        | .ok (db2, k) =>
          if k == 0 then
            .ok { db2 with stations := db2.stations.filter (fun s => s.id ≠ sid) }
          else
            .ok db2

/-! ## Association engine (amps.py 418-469) -/

/-- A row of the station-channel-pgm join the association query
returns (amps.py 424-441). -/
structure CandRow where
  sid : Nat
  network : String
  name : String
  code : String
  timestamp : Int
  lat : ℚ
  lon : ℚ
  channel : String
  imt : String
  value : ℚ
  deriving DecidableEq

/-- Stand-in type for `geodetic_distance`: the great-circle routine is
transcendental float code, so the association pass is parameterized by
the distance function, applied as `dist eqlon eqlat stationlon
stationlat` exactly as the source applies `geodetic_distance`. -/
def Dist : Type := ℚ → ℚ → ℚ → ℚ → ℚ

/-- The inner join through channels and measurements. -/
def joinRows (db : DB) : List CandRow :=
  db.stations.flatMap (fun s =>
    (db.channels.filter (fun c => c.station_id == s.id)).flatMap (fun c =>
      (db.pgms.filter (fun p => p.channel_id == c.id)).map (fun p =>
        { sid := s.id, network := s.network, name := s.name, code := s.code,
          timestamp := s.timestamp, lat := s.lat, lon := s.lon,
          channel := c.channel, imt := p.imt, value := p.value })))

/-- The SQL-side time filter (amps.py 436-437): strict bounds at
`origin - TMIN` and `origin + TMAX`. -/
def candRows (db : DB) (ev : Event) : List CandRow :=
  (joinRows db).filter (fun r =>
    decide (ev.time - TMIN * 1000 < r.timestamp) &&
    decide (r.timestamp < ev.time + TMAX * 1000))

/-- A candidate row with the derived pandas columns (amps.py 443-457):
distance, expected P travel time `distance / 4.2`, and the diagnostic
`dt` column.  Only `distance` feeds the acceptance predicate. -/
structure ARow extends CandRow where
  distance : ℚ
  traveltime : ℚ
  dt : ℚ
  deriving DecidableEq

def withDerived (dist : Dist) (ev : Event) (r : CandRow) : ARow :=
  let d := dist ev.lon ev.lat r.lon r.lat
  { toCandRow := r, distance := d, traveltime := d / P_TRAVEL_TIME,
    dt := abs (abs ((ev.time - r.timestamp : Int) : ℚ) - d / P_TRAVEL_TIME) }

/-- Station keys accepted by the pass (amps.py 452-464): the time
window recomputed row-wise exactly as in the SQL filter, conjoined
with the strict distance window. -/
def acceptedIds (dist : Dist) (db : DB) (ev : Event) : List Nat :=
  (((candRows db ev).map (withDerived dist ev)).filter (fun r =>
    (decide (ev.time - TMIN * 1000 < r.timestamp) &&
     decide (r.timestamp < ev.time + TMAX * 1000)) &&
    decide (r.distance < DISTANCE))).map (fun r => r.sid)

/-- One association pass (amps.py 418-469): bulk-update the accepted
stations' `event_id` to this event's key; all other rows are left
untouched. -/
def associate (dist : Dist) (db : DB) (ev : Event) : DB :=
  { db with stations := db.stations.map (fun s =>
      if (acceptedIds dist db ev).contains s.id then { s with event_id := some ev.id }
      else s) }

/-- The full sweep (amps.py 399-415): for each event in the event
table, run the association pass, hand the associated set to the export
collaborator (a pure payload handoff with no database effect), then
bulk-delete every station row whose `event_id` equals the event's key.
The bulk delete removes only station rows; channel and pgm rows are
not touched by it. -/
def sweepStep (dist : Dist) (acc : DB) (ev : Event) : DB :=
  let a := associate dist acc ev
  { a with stations := a.stations.filter (fun s => ¬ (s.event_id == some ev.id)) }

def associate_amps (dist : Dist) (db : DB) : DB :=
  db.events.foldl (sweepStep dist) db

/-! ## Retention sweep (amps.py 472-487) -/

/-- `clean_database`: two bulk range deletes.  `now` models
`datetime.utcnow()` (the source samples it twice a few microseconds
apart; one value stands for both).  As bulk deletes, neither touches
any other table. -/
def clean_database (now : Int) (db : DB) : DB :=
  { db with
    stations := db.stations.filter (fun s =>
      !(decide (s.loadtime < now - MAX_AMP_AGE * 86400000))),
    events := db.events.filter (fun e =>
      !(decide (e.time < now - MAX_EVENT_AGE * 86400000))) }

/-! ## Event upsert (amps.py 117-173) -/

/-- The Python event dictionary: a field is `some` exactly when the
key is present; reading an absent key raises `KeyError`. -/
structure EventDict where
  eventid : Option String := none
  ids : Option (List String) := none
  netid : Option String := none
  time : Option Int := none
  latitude : Option ℚ := none
  longitude : Option ℚ := none
  lat : Option ℚ := none
  lon : Option ℚ := none
  depth : Option ℚ := none
  magnitude : Option ℚ := none
  locstring : Option String := none
  deriving DecidableEq

def keyGet {α : Type} (o : Option α) (k : String) : Except String α :=
  match o with
  | some v => .ok v
  | none => .error ("KeyError: " ++ k)

/-- `insert_event`: look the event up under its id and every alternate
id; overwrite the matched row in place, else insert a new row.  Note
the update path reads the `latitude` / `longitude` keys while the
create path reads `lat` / `lon` (amps.py 151-152 versus 164-165). -/
def insert_event (d : EventDict) (db : DB) : Except String DB := do
  let eventid ← keyGet d.eventid "eventid"
  let ids ← keyGet d.ids "ids"
  let allids := eventid :: ids
  match allids.findSome? (fun eid => db.events.find? (fun e => e.eventid == eid)) with
  | some ev => do
    let time ← keyGet d.time "time"
    let latitude ← keyGet d.latitude "latitude"
    let longitude ← keyGet d.longitude "longitude"
    let depth ← keyGet d.depth "depth"
    let magnitude ← keyGet d.magnitude "magnitude"
    let locstring ← keyGet d.locstring "locstring"
    pure { db with events := db.events.map (fun e =>
      if e.id == ev.id then
        { e with eventid := eventid, time := time, lat := latitude, lon := longitude,
                 depth := depth, magnitude := magnitude, locstring := locstring }
      else e) }
  | none => do
    let netid ← keyGet d.netid "netid"
    let time ← keyGet d.time "time"
    let lat ← keyGet d.lat "lat"
    let lon ← keyGet d.lon "lon"
    let depth ← keyGet d.depth "depth"
    let magnitude ← keyGet d.magnitude "magnitude"
    let locstring ← keyGet d.locstring "locstring"
    pure { db with
      events := db.events ++ [{ id := db.nextEventId, eventid := eventid, netid := netid,
                                time := time, lat := lat, lon := lon, depth := depth,
                                magnitude := magnitude, locstring := locstring }],
      nextEventId := db.nextEventId + 1 }

/-! ## Concrete instances

Small documents and database states, shaped like the repository's test
fixtures, used to evaluate the embedded operations at concrete
inputs. -/

/-- A minimal well-formed amplitude document: one station `us/ABC`,
one component with a single pga of 9.81 (normalizing to 1.0). -/
def sampleDoc : AmpDoc :=
  { rootTag := "amplitudes", agency := "us",
    refChildren := [{ tag := "PGMTime", value := none, text := some "2018-03-07T18:04:52Z" }],
    station := { lat := 1/2, lon := 1/4, code := "ABC", name := "Station 1",
                 net := some "us", netid := none },
    components := [{ name := "HN1", qual := some "3", loc := some "05",
                     pgms := [{ tag := "pga", value := some "9.81", period := none }] }] }

/-- The timestamp `sampleDoc` states. -/
def sampleT : Int := toMillis 2018 3 7 18 4 52 0

/-- The database state after ingesting `sampleDoc` into an empty
database at load time 0. -/
def sampleDb1 : DB :=
  { events := [],
    stations := [{ id := 1, event_id := some 0, timestamp := sampleT,
                   lat := 1/2, lon := 1/4, network := "us", name := "Station 1",
                   code := "ABC", loadtime := 0 }],
    channels := [{ id := 1, station_id := 1, channel := "HN1", loc := "05" }],
    pgms := [{ id := 1, channel_id := 1, imt := "pga", value := 1 }],
    nextEventId := 1, nextStationId := 2, nextChannelId := 2, nextPgmId := 2 }


/-- A constant distance function: a stand-in instantiation of the
`dist` parameter (the real `geodetic_distance` of the two concrete
coordinate pairs used below is far under the 500 km window, so 0 is a
faithful stand-in for them). -/
def constDist : Dist := fun _ _ _ _ => 0

/-- An event at time 1000000 ms with one associable station. -/
def c2ev : Event :=
  { id := 1, eventid := "us2020abcd", netid := "us", time := 1000000,
    lat := 0, lon := 0, depth := 10, magnitude := 13/2, locstring := "somewhere" }

/-- A station one second after `c2ev`, not yet associated. -/
def c2st : Station :=
  { id := 1, event_id := some 0, timestamp := 1001000, lat := 1/10, lon := 1/10,
    network := "us", name := "S", code := "ABC", loadtime := 0 }

/-- One event, one unassociated station carrying a channel and a
measurement: the station falls inside both acceptance windows. -/
def c2db : DB :=
  { events := [c2ev],
    stations := [c2st],
    channels := [{ id := 1, station_id := 1, channel := "HN1", loc := "--" }],
    pgms := [{ id := 1, channel_id := 1, imt := "pga", value := 1 }],
    nextEventId := 2, nextStationId := 2, nextChannelId := 2, nextPgmId := 2 }

/-- A document whose only measurement is missing its `value`
attribute: `float(pgm.get('value'))` is `float(None)`, a `TypeError`
that the `except ValueError` handler does not catch. -/
def c4doc : AmpDoc :=
  { rootTag := "amplitudes", agency := "us",
    refChildren := [{ tag := "PGMTime", value := none, text := some "2018-03-07T18:04:52Z" }],
    station := { lat := 1/2, lon := 1/4, code := "BAD", name := "S",
                 net := some "us", netid := none },
    components := [{ name := "HN1", qual := none, loc := none,
                     pgms := [{ tag := "pga", value := none, period := none }] }] }

/-- The state committed when `c4doc`'s merge raises: the new Station
and its Channel rows are already committed, no measurement is. -/
def c4db (now : Int) : DB :=
  { events := [],
    stations := [{ id := 1, event_id := some 0, timestamp := sampleT,
                   lat := 1/2, lon := 1/4, network := "us", name := "S",
                   code := "BAD", loadtime := now }],
    channels := [{ id := 1, station_id := 1, channel := "HN1", loc := "--" }],
    pgms := [],
    nextEventId := 1, nextStationId := 2, nextChannelId := 2, nextPgmId := 1 }

def dayMs : Int := 86400000

def c5now : Int := 100 * dayMs

/-- A stale station (loaded 16 days ago) with a channel and a
measurement, a fresh station associated to a stale event (91 days
old). -/
def c5db : DB :=
  { events := [{ id := 1, eventid := "us2020abcd", netid := "us", time := c5now - 91 * dayMs,
                 lat := 0, lon := 0, depth := 10, magnitude := 13/2, locstring := "x" }],
    stations := [{ id := 1, event_id := some 0, timestamp := 0, lat := 0, lon := 0,
                   network := "us", name := "S1", code := "OLD",
                   loadtime := c5now - 16 * dayMs },
                 { id := 2, event_id := some 1, timestamp := 0, lat := 0, lon := 0,
                   network := "us", name := "S2", code := "NEW", loadtime := c5now }],
    channels := [{ id := 1, station_id := 1, channel := "HN1", loc := "--" }],
    pgms := [{ id := 1, channel_id := 1, imt := "pga", value := 1 }],
    nextEventId := 2, nextStationId := 3, nextChannelId := 2, nextPgmId := 2 }

/-- One component reporting both `acc` 19.62 and `pga` 9.81: both
normalize to type `pga` (values 2.0 and 1.0). -/
def c6doc : AmpDoc :=
  { rootTag := "amplitudes", agency := "us",
    refChildren := [{ tag := "PGMTime", value := none, text := some "2018-03-07T18:04:52Z" }],
    station := { lat := 1/2, lon := 1/4, code := "DUP", name := "S",
                 net := some "us", netid := none },
    components := [{ name := "HN1", qual := none, loc := none,
                     pgms := [{ tag := "acc", value := some "19.62", period := none },
                              { tag := "pga", value := some "9.81", period := none }] }] }

/-- The state after ingesting `c6doc` into an empty database: two
`pga` rows under the same channel. -/
def c6db : DB :=
  { events := [],
    stations := [{ id := 1, event_id := some 0, timestamp := sampleT,
                   lat := 1/2, lon := 1/4, network := "us", name := "S",
                   code := "DUP", loadtime := 0 }],
    channels := [{ id := 1, station_id := 1, channel := "HN1", loc := "--" }],
    pgms := [{ id := 1, channel_id := 1, imt := "pga", value := 2 },
             { id := 2, channel_id := 1, imt := "pga", value := 1 }],
    nextEventId := 1, nextStationId := 2, nextChannelId := 2, nextPgmId := 3 }

/-- Two live stations for `us/ABC` five seconds apart, each with a
channel and a measurement. -/
def c7db : DB :=
  { events := [],
    stations := [{ id := 1, event_id := some 0, timestamp := 0, lat := 0, lon := 0,
                   network := "us", name := "A", code := "ABC", loadtime := 0 },
                 { id := 2, event_id := some 0, timestamp := 5000, lat := 0, lon := 0,
                   network := "us", name := "B", code := "ABC", loadtime := 0 }],
    channels := [{ id := 1, station_id := 1, channel := "HN1", loc := "--" },
                 { id := 2, station_id := 2, channel := "HN1", loc := "--" }],
    pgms := [{ id := 1, channel_id := 1, imt := "pga", value := 1 },
             { id := 2, channel_id := 2, imt := "pga", value := 1 }],
    nextEventId := 1, nextStationId := 3, nextChannelId := 3, nextPgmId := 3 }

/-- A report for `us/ABC` timestamped 1970-01-01T00:00:02 (epoch
2000 ms), between the two `c7db` stations and within 10 s of both;
the time comes through the assembled year-to-second path. -/
def c7doc : AmpDoc :=
  { rootTag := "amplitudes", agency := "us",
    refChildren := [{ tag := "year", value := some "1970", text := none },
                    { tag := "month", value := some "1", text := none },
                    { tag := "day", value := some "1", text := none },
                    { tag := "hour", value := some "0", text := none },
                    { tag := "minute", value := some "0", text := none },
                    { tag := "second", value := some "2", text := none }],
    station := { lat := 0, lon := 0, code := "ABC", name := "C",
                 net := some "us", netid := none },
    components := [{ name := "HN1", qual := none, loc := none,
                     pgms := [{ tag := "pga", value := some "9.81", period := none }] }] }

/-- A document stating its time through `PGMTime`, with an arbitrary
continuation after the 19-character whole-seconds prefix (for the
concrete counterexample the continuation is `.925Z`). -/
def c9docA (suffix : String) : AmpDoc :=
  { rootTag := "amplitudes", agency := "us",
    refChildren := [{ tag := "PGMTime", value := none,
                      text := some ("2018-03-07T18:04:52" ++ suffix) }],
    station := { lat := 1/2, lon := 1/4, code := "FRA", name := "S",
                 net := some "us", netid := none },
    components := [{ name := "HN1", qual := none, loc := none,
                     pgms := [{ tag := "pga", value := some "9.81", period := none }] }] }

/-- A document stating its time through the individual fields,
including a 500 ms `msec` field. -/
def c9docB : AmpDoc :=
  { rootTag := "amplitudes", agency := "us",
    refChildren := [{ tag := "year", value := some "2020", text := none },
                    { tag := "month", value := some "1", text := none },
                    { tag := "day", value := some "2", text := none },
                    { tag := "hour", value := some "3", text := none },
                    { tag := "minute", value := some "4", text := none },
                    { tag := "second", value := some "5", text := none },
                    { tag := "msec", value := some "500", text := none }],
    station := { lat := 1/2, lon := 1/4, code := "MSC", name := "S",
                 net := some "us", netid := none },
    components := [{ name := "HN1", qual := none, loc := none,
                     pgms := [{ tag := "pga", value := some "9.81", period := none }] }] }

/-- The event descriptor shape the repository's own tests pass: keys
`lat` / `lon` present, `latitude` / `longitude` absent. -/
def c10d1 : EventDict :=
  { eventid := some "ci12345678", ids := some [], netid := some "us", time := some 0,
    lat := some 0, lon := some 0, depth := some 10, magnitude := some (13/2),
    locstring := some "somewhere" }

/-- The same shape for a second descriptor whose alternate-id list
names `c10d1`'s event, forcing the update path. -/
def c10d2 : EventDict :=
  { eventid := some "us2020abcd", ids := some ["ci12345678"], netid := some "us",
    time := some 34000, lat := some (1/10), lon := some (1/2), depth := some 10,
    magnitude := some (67/10), locstring := some "somewhere" }

/-- The database after `insert_event c10d1` on an empty database. -/
def c10db1 : DB :=
  { events := [{ id := 1, eventid := "ci12345678", netid := "us", time := 0,
                 lat := 0, lon := 0, depth := 10, magnitude := 13/2,
                 locstring := "somewhere" }],
    stations := [], channels := [], pgms := [],
    nextEventId := 2, nextStationId := 1, nextChannelId := 1, nextPgmId := 1 }


/-! ## General lemmas about the embedded operations -/

theorem station_eq_of_id_eq {l : List Station} (h : (l.map Station.id).Nodup)
    {s t : Station} (hs : s ∈ l) (ht : t ∈ l) (hid : t.id = s.id) : t = s :=
  List.inj_on_of_nodup_map h ht hs hid

theorem mem_acceptedIds {dist : Dist} {db : DB} {ev : Event} {n : Nat} :
    n ∈ acceptedIds dist db ev ↔
    ∃ st ∈ db.stations, st.id = n ∧
      (∃ c ∈ db.channels, c.station_id = st.id ∧ ∃ p ∈ db.pgms, p.channel_id = c.id) ∧
      ev.time - TMIN * 1000 < st.timestamp ∧ st.timestamp < ev.time + TMAX * 1000 ∧
      dist ev.lon ev.lat st.lon st.lat < DISTANCE := by
  simp only [acceptedIds, candRows, joinRows, withDerived, List.mem_map, List.mem_filter,
    List.mem_flatMap, Bool.and_eq_true, decide_eq_true_eq, beq_iff_eq]
  constructor
  · rintro ⟨a, ⟨⟨r, ⟨⟨st, hst, c, ⟨hc, hcs⟩, p, ⟨hp, hpc⟩, rfl⟩, ht1, ht2⟩, rfl⟩, ⟨hw1, hw2⟩, hd⟩, rfl⟩
    exact ⟨st, hst, rfl, ⟨c, hc, hcs, p, hp, hpc⟩, hw1, hw2, hd⟩
  · rintro ⟨st, hst, rfl, ⟨c, hc, hcs, p, hp, hpc⟩, h1, h2, h3⟩
    exact ⟨_, ⟨⟨_, ⟨⟨st, hst, c, ⟨hc, hcs⟩, p, ⟨hp, hpc⟩, rfl⟩, h1, h2⟩, rfl⟩, ⟨h1, h2⟩, h3⟩, rfl⟩

theorem sweepStep_none (dist : Dist) (db : DB) (ev : Event) :
    ∀ s ∈ (sweepStep dist db ev).stations, s.event_id ≠ some ev.id := by
  intro s hs
  simp only [sweepStep, List.mem_filter, Bool.not_eq_eq_eq_not, Bool.not_true,
    beq_eq_false_iff_ne, ne_eq, decide_eq_true_eq] at hs
  intro h
  exact hs.2 (by simp [h])

theorem sweepStep_preserve (dist : Dist) (db : DB) (e2 ev : Event) (hne : e2.id ≠ ev.id)
    (hP : ∀ s ∈ db.stations, s.event_id ≠ some ev.id) :
    ∀ s ∈ (sweepStep dist db e2).stations, s.event_id ≠ some ev.id := by
  intro s hs
  simp only [sweepStep, List.mem_filter] at hs
  obtain ⟨hmem, -⟩ := hs
  simp only [associate, List.mem_map] at hmem
  obtain ⟨t, ht, rfl⟩ := hmem
  by_cases hc : (acceptedIds dist db e2).contains t.id
  · simp only [hc, if_true]
    intro h
    exact hne (by injection h)
  · simp only [hc, if_false]
    exact hP t ht

theorem sweepStep_channels (dist : Dist) (db : DB) (ev : Event) :
    (sweepStep dist db ev).channels = db.channels := rfl

theorem sweepStep_pgms (dist : Dist) (db : DB) (ev : Event) :
    (sweepStep dist db ev).pgms = db.pgms := rfl

theorem foldl_sweep_preserve (dist : Dist) (ev : Event) :
    ∀ (evs : List Event) (dbx : DB), (∀ e2 ∈ evs, e2.id ≠ ev.id) →
    (∀ s ∈ dbx.stations, s.event_id ≠ some ev.id) →
    ∀ s ∈ (evs.foldl (sweepStep dist) dbx).stations, s.event_id ≠ some ev.id := by
  intro evs
  induction evs with
  | nil => intro dbx _ hP; exact hP
  | cons e rest ih =>
    intro dbx hne hP
    exact ih (sweepStep dist dbx e) (fun e2 h2 => hne e2 (List.mem_cons_of_mem e h2))
      (sweepStep_preserve dist dbx e ev (hne e (List.mem_cons_self e rest)) hP)

theorem foldl_sweep_chan_pgm (dist : Dist) :
    ∀ (evs : List Event) (dbx : DB),
    (evs.foldl (sweepStep dist) dbx).channels = dbx.channels ∧
    (evs.foldl (sweepStep dist) dbx).pgms = dbx.pgms := by
  intro evs
  induction evs with
  | nil => intro dbx; exact ⟨rfl, rfl⟩
  | cons e rest ih =>
    intro dbx
    simpa [List.foldl_cons, sweepStep_channels, sweepStep_pgms] using ih (sweepStep dist dbx e)

theorem addPgms_stations : ∀ (l : List (String × ℚ)) (db : DB) (cid : Nat),
    (addPgms db cid l).stations = db.stations := by
  intro l
  induction l with
  | nil => intro db cid; rfl
  | cons x xs ih =>
    intro db cid
    unfold addPgms at *
    rw [List.foldl_cons]
    exact ih _ cid

theorem addPgms_channels : ∀ (l : List (String × ℚ)) (db : DB) (cid : Nat),
    (addPgms db cid l).channels = db.channels := by
  intro l
  induction l with
  | nil => intro db cid; rfl
  | cons x xs ih =>
    intro db cid
    unfold addPgms at *
    rw [List.foldl_cons]
    exact ih _ cid

theorem addPgms_nextChannelId : ∀ (l : List (String × ℚ)) (db : DB) (cid : Nat),
    (addPgms db cid l).nextChannelId = db.nextChannelId := by
  intro l
  induction l with
  | nil => intro db cid; rfl
  | cons x xs ih =>
    intro db cid
    unfold addPgms at *
    rw [List.foldl_cons]
    exact ih _ cid

theorem addPgms_pgms_mono : ∀ (l : List (String × ℚ)) (db : DB) (cid : Nat) (p : PGM),
    p ∈ db.pgms → p ∈ (addPgms db cid l).pgms := by
  intro l
  induction l with
  | nil => intro db cid p hp; exact hp
  | cons x xs ih =>
    intro db cid p hp
    unfold addPgms at *
    rw [List.foldl_cons]
    exact ih _ cid p (List.mem_append_left _ hp)

theorem addPgms_head : ∀ (x : String × ℚ) (xs : List (String × ℚ)) (db : DB) (cid : Nat),
    ∃ p ∈ (addPgms db cid (x :: xs)).pgms, p.channel_id = cid := by
  intro x xs db cid
  refine ⟨{ id := db.nextPgmId, channel_id := cid, imt := x.1, value := x.2 }, ?_, rfl⟩
  unfold addPgms
  rw [List.foldl_cons]
  exact addPgms_pgms_mono xs _ cid _ (List.mem_append_right _ (by simp))

theorem procComponents_spec (sid : Nat) :
    ∀ (comps : List Component) (dbx : DB) (k : Int) (dbf : DB) (kf : Int),
    (∀ c ∈ dbx.channels, c.id < dbx.nextChannelId) →
    procComponents sid [] comps dbx k = .ok (dbf, kf) →
    dbf.stations = dbx.stations ∧
    (∀ p ∈ dbx.pgms, p ∈ dbf.pgms) ∧
    ∃ L, dbf.channels = dbx.channels ++ L ∧ kf = k + L.length ∧
      ∀ c ∈ L, c.station_id = sid ∧ ∃ p ∈ dbf.pgms, p.channel_id = c.id := by
  intro comps
  induction comps with
  | nil =>
    intro dbx k dbf kf hlt h
    simp only [procComponents, Except.ok.injEq, Prod.mk.injEq] at h
    obtain ⟨rfl, rfl⟩ := h
    exact ⟨rfl, fun p hp => hp, [], by simp⟩
  | cons c rest ih =>
    intro dbx k dbf kf hlt h
    simp only [procComponents, dictLookup, List.reverse_nil, List.find?_nil,
      Option.map_none'] at h
    split at h
    · exact ih dbx k dbf kf hlt h
    · split at h
      · exact absurd h (by simp)
      · rename_i plist hbuild
        split at h
        · -- plist nonempty: channel kept, pgms committed
          rename_i hlen
          have hlt1 : ∀ c2 ∈ (addPgms (addChannel dbx sid c) dbx.nextChannelId plist).channels,
              c2.id < (addPgms (addChannel dbx sid c) dbx.nextChannelId plist).nextChannelId := by
            rw [addPgms_channels, addPgms_nextChannelId]
            intro c2 hc2
            rcases List.mem_append.mp hc2 with hl | hr
            · exact Nat.lt_succ_of_lt (hlt c2 hl)
            · simp only [List.mem_singleton] at hr
              subst hr
              exact Nat.lt_succ_self _
          obtain ⟨h1, h2, L2, hL1, hL2, hL3⟩ :=
            ih (addPgms (addChannel dbx sid c) dbx.nextChannelId plist) (k + 1) dbf kf hlt1 h
          have hch : (addPgms (addChannel dbx sid c) dbx.nextChannelId plist).channels =
              dbx.channels ++ [{ id := dbx.nextChannelId, station_id := sid,
                                 channel := c.name, loc := channelLoc c }] := by
            rw [addPgms_channels]; rfl
          refine ⟨by rw [h1, addPgms_stations]; rfl, ?_, ?_⟩
          · intro p hp
            exact h2 p (addPgms_pgms_mono plist _ _ p hp)
          · refine ⟨{ id := dbx.nextChannelId, station_id := sid,
                      channel := c.name, loc := channelLoc c } :: L2, ?_, ?_, ?_⟩
            · rw [hL1, hch]
              simp
            · simp only [List.length_cons]
              push_cast
              omega
            · intro c2 hc2
              rcases List.mem_cons.mp hc2 with rfl | hc2r
              · refine ⟨rfl, ?_⟩
                obtain ⟨x, xs, rfl⟩ : ∃ x xs, plist = x :: xs := by
                  cases plist with
                  | nil => simp at hlen
                  | cons x xs => exact ⟨x, xs, rfl⟩
                obtain ⟨p, hp1, hp2⟩ := addPgms_head x xs (addChannel dbx sid c) dbx.nextChannelId
                exact ⟨p, h2 p hp1, hp2⟩
              · exact hL3 c2 hc2r
        · -- plist empty: channel rolled back
          have hdel : (delChannel (addChannel dbx sid c) dbx.nextChannelId).channels =
              dbx.channels := by
            simp only [delChannel, addChannel, List.filter_append]
            have left : List.filter (fun ch => decide (ch.id ≠ dbx.nextChannelId)) dbx.channels =
                dbx.channels := by
              apply List.filter_eq_self.mpr
              intro ch hch
              simpa using Nat.ne_of_lt (hlt ch hch)
            rw [left]
            simp
          have hlt1 : ∀ c2 ∈ (delChannel (addChannel dbx sid c) dbx.nextChannelId).channels,
              c2.id < (delChannel (addChannel dbx sid c) dbx.nextChannelId).nextChannelId := by
            rw [hdel]
            intro c2 hc2
            exact Nat.lt_succ_of_lt (hlt c2 hc2)
          obtain ⟨h1, h2, L2, hL1, hL2, hL3⟩ :=
            ih (delChannel (addChannel dbx sid c) dbx.nextChannelId) ((k + 1) - 1) dbf kf hlt1 h
          refine ⟨by rw [h1]; rfl, h2, L2, by rw [hL1, hdel], by omega, hL3⟩



/-! ## Claim theorems and witnesses -/

/-- C1: one association pass sets a station's event association to
the event exactly on the accepted-id set, and for every persisted
station carrying at least one channel with at least one measurement,
acceptance holds if and only if the timestamp lies strictly inside
`(origin - 60 s, origin + 180 s)` and the distance from the origin is
strictly under 500 km; the derived P-arrival offset `distance / 4.2`
is computed into the candidate rows but plays no role in the
predicate. -/
theorem associate_window_iff (dist : Dist) (db : DB) (ev : Event) (s : Station)
    (hwf : db.WF) (hs : s ∈ db.stations)
    (hm : ∃ c ∈ db.channels, c.station_id = s.id ∧ ∃ p ∈ db.pgms, p.channel_id = c.id) :
    (associate dist db ev).stations = db.stations.map (fun t =>
      if (acceptedIds dist db ev).contains t.id then { t with event_id := some ev.id } else t) ∧
    (s.id ∈ acceptedIds dist db ev ↔
      (ev.time - TMIN * 1000 < s.timestamp ∧ s.timestamp < ev.time + TMAX * 1000 ∧
       dist ev.lon ev.lat s.lon s.lat < DISTANCE)) := by
  obtain ⟨-, -, -, -, -, hsN, -, -⟩ := hwf
  refine ⟨rfl, ?_⟩
  rw [mem_acceptedIds]
  constructor
  · rintro ⟨st, hst, hid, hm2, h1, h2, h3⟩
    obtain rfl : st = s := station_eq_of_id_eq hsN hs hst hid
    exact ⟨h1, h2, h3⟩
  · rintro ⟨h1, h2, h3⟩
    exact ⟨s, hs, rfl, hm, h1, h2, h3⟩

/-- C2 amended: after its export, every station associated with a
swept event is deleted outright by the sweep (no surviving station row
carries that event's association), while the bulk delete leaves the
channel and measurement tables untouched. -/
theorem associate_amps_removes (dist : Dist) (db : DB) (ev : Event)
    (hev : ev ∈ db.events) (hnodup : (db.events.map Event.id).Nodup) :
    (∀ s ∈ (associate_amps dist db).stations, s.event_id ≠ some ev.id) ∧
    (associate_amps dist db).channels = db.channels ∧
    (associate_amps dist db).pgms = db.pgms := by
  refine ⟨?_, (foldl_sweep_chan_pgm dist db.events db).1, (foldl_sweep_chan_pgm dist db.events db).2⟩
  unfold associate_amps
  have main : ∀ (evs : List Event) (dbx : DB), ev ∈ evs → (evs.map Event.id).Nodup →
      ∀ s ∈ (evs.foldl (sweepStep dist) dbx).stations, s.event_id ≠ some ev.id := by
    intro evs
    induction evs with
    | nil => intro dbx h; exact fun _ => absurd h (List.not_mem_nil ev)
    | cons e rest ih =>
      intro dbx hmem hnd
      rcases List.mem_cons.mp hmem with rfl | hmem2
      · simp only [List.foldl_cons]
        apply foldl_sweep_preserve dist ev rest (sweepStep dist dbx ev)
        · intro e2 h2 heq
          have hin : ev.id ∈ rest.map Event.id := heq ▸ List.mem_map_of_mem Event.id h2
          exact (List.nodup_cons.mp (by simpa using hnd)).1 hin
        · exact sweepStep_none dist dbx ev
      · exact fun s hsmem => ih (sweepStep dist dbx e) hmem2
          (List.Nodup.of_cons (by simpa using hnd)) s hsmem
  exact main db.events db hev hnodup

/-- C8: an ingestion that completes without raising leaves no newly
created channel without a measurement and no newly created station
without a channel. -/
theorem insert_amps_ok_no_empty (now : Int) (doc : AmpDoc) (db db2 : DB)
    (hwf : db.WF) (h : insert_amps now doc db = .ok db2) :
    (∀ ch ∈ db2.channels, ch.id ∉ db.channels.map Channel.id →
       ∃ p ∈ db2.pgms, p.channel_id = ch.id) ∧
    (∀ s ∈ db2.stations, s.id ∉ db.stations.map Station.id →
       ∃ ch ∈ db2.channels, ch.station_id = s.id) := by
  obtain ⟨-, hsLt, hcLt, -, -, -, -, -⟩ := hwf
  simp only [insert_amps] at h
  split at h
  · exact absurd h (by simp)
  · split at h
    · exact absurd h (by simp)
    · exact absurd h (by simp)
    · split at h
      · exact absurd h (by simp)
      · split at h
        · exact absurd h (by simp)
        · rename_i x2 pgmdate hdate x1 hmatch x dbf k hpc
          obtain ⟨h1, h2, L, hL1, hL2, hL3⟩ :=
            procComponents_spec db.nextStationId doc.components
              (addStation db (newStation now doc pgmdate db.nextStationId)) 0 dbf k hcLt hpc
          have hL1c : dbf.channels = db.channels ++ L := hL1
          have hfs : dbf.stations =
              db.stations ++ [newStation now doc pgmdate db.nextStationId] := h1
          have chanPart : ∀ ch ∈ dbf.channels, ch.id ∉ List.map Channel.id db.channels →
              ∃ p ∈ dbf.pgms, p.channel_id = ch.id := by
            intro ch hch hnotin
            rcases List.mem_append.mp (hL1c ▸ hch) with hold | hnew
            · exact absurd (List.mem_map_of_mem Channel.id hold) hnotin
            · exact (hL3 ch hnew).2
          split at h
          · -- channels_inserted == 0: station rolled back
            rename_i hk0
            injection h with h
            subst h
            constructor
            · intro ch hch hnotin
              exact chanPart ch hch hnotin
            · intro s hs hnotin
              simp only [List.mem_filter, decide_eq_true_eq] at hs
              obtain ⟨hmem, hne⟩ := hs
              rcases List.mem_append.mp (hfs ▸ hmem) with hold | hnew
              · exact absurd (List.mem_map_of_mem Station.id hold) hnotin
              · simp only [List.mem_singleton] at hnew
                subst hnew
                exact absurd rfl hne
          · -- channels_inserted ≠ 0: station kept, some channel survives
            rename_i hk0
            injection h with h
            subst h
            refine ⟨chanPart, ?_⟩
            intro s hs hnotin
            rcases List.mem_append.mp (hfs ▸ hs) with hold | hnew
            · exact absurd (List.mem_map_of_mem Station.id hold) hnotin
            · simp only [List.mem_singleton] at hnew
              subst hnew
              have hLne : L ≠ [] := by
                intro hnil
                subst hnil
                simp only [List.length_nil, Nat.cast_zero, add_zero] at hL2
                simp [hL2] at hk0
              obtain ⟨c0, hc0⟩ := List.exists_mem_of_ne_nil L hLne
              exact ⟨c0, hL1c ▸ List.mem_append_right _ hc0, (hL3 c0 hc0).1⟩

/-- C1 witness: the window iff at a concrete event, database and
station. -/
theorem associate_window_iff_witness :
    ((associate constDist c2db c2ev).stations = c2db.stations.map (fun t =>
      if (acceptedIds constDist c2db c2ev).contains t.id then { t with event_id := some c2ev.id }
      else t)) ∧
    (c2st.id ∈ acceptedIds constDist c2db c2ev ↔
      (c2ev.time - TMIN * 1000 < c2st.timestamp ∧ c2st.timestamp < c2ev.time + TMAX * 1000 ∧
       constDist c2ev.lon c2ev.lat c2st.lon c2st.lat < DISTANCE)) :=
  associate_window_iff constDist c2db c2ev c2st (by decide) (by decide) (by decide)

/-- C2 counterexample: after the full sweep over `c2db`, the
associated station's row is gone from the station table, not detached
and persisted. -/
theorem associate_amps_deletes_not_detaches_cex :
    c2db.stations ≠ [] ∧ (associate_amps constDist c2db).stations = [] := by decide

/-- C2 witness for the amended claim. -/
theorem associate_amps_removes_witness :
    (∀ s ∈ (associate_amps constDist c2db).stations, s.event_id ≠ some c2ev.id) ∧
    (associate_amps constDist c2db).channels = c2db.channels ∧
    (associate_amps constDist c2db).pgms = c2db.pgms :=
  associate_amps_removes constDist c2db c2ev (by decide) (by decide)

/-- C3: the first ingestion of `sampleDoc` succeeds; re-ingesting the
identical document raises `AttributeError` (amps.py 304-305 queries
`Station.station_id`, which does not exist) instead of completing with
zero new rows. -/
theorem insert_amps_reingest_raises :
    insert_amps 0 sampleDoc DB.empty = .ok sampleDb1 ∧
    sampleDb1.stations.length = 1 ∧ sampleDb1.channels.length = 1 ∧
    sampleDb1.pgms.length = 1 ∧
    insert_amps 5 sampleDoc sampleDb1 =
      .error sampleDb1 "AttributeError: type object Station has no attribute station_id" := by
  decide

/-- C4 counterexample: the merge of `c4doc` raises after persistence
has begun, and the state at the raise point is not the pre-call state:
a Station and an empty Channel row are committed. -/
theorem insert_amps_partial_state_cex :
    insert_amps 0 c4doc DB.empty = .error (c4db 0) "TypeError: float(None)" ∧
    c4db 0 ≠ DB.empty ∧ (c4db 0).stations.length = 1 ∧
    (c4db 0).channels.length = 1 ∧ (c4db 0).pgms = [] := by decide

/-- C4 amended: the merge is not atomic.  `insert_amps` commits the
new Station and each new Channel before reading that channel's
measurements, so an error raised in the measurement loop (here the
`TypeError` from a missing `value` attribute) propagates with the
Station and the empty Channel still persisted. -/
theorem insert_amps_partial_commit (now : Int) :
    insert_amps now c4doc DB.empty = .error (c4db now) "TypeError: float(None)" := rfl

/-- C5: `clean_database` deletes exactly the over-age Station and
Event rows, but as bulk deletes they do not cascade: the deleted
station's Channel and PGM rows survive as orphans, and the deleted
event's still-associated Station survives with a dangling
`event_id`. -/
theorem clean_database_no_cascade :
    (clean_database c5now c5db).stations.map Station.id = [2] ∧
    (clean_database c5now c5db).events = [] ∧
    (clean_database c5now c5db).channels = c5db.channels ∧
    (clean_database c5now c5db).pgms = c5db.pgms ∧
    (∀ c ∈ (clean_database c5now c5db).channels, c.station_id = 1) ∧
    (∀ s ∈ (clean_database c5now c5db).stations, s.id ≠ 1) ∧
    (∃ s ∈ (clean_database c5now c5db).stations, s.event_id = some 1) := by decide

/-- C6 counterexample: a completed ingestion of `c6doc` leaves two
rows labelled `pga` (values 2 and 1) under one channel: the
measurement-type set of a channel is not duplicate-free. -/
theorem insert_amps_duplicate_imt_cex :
    insert_amps 0 c6doc DB.empty = .ok c6db ∧
    c6db.pgms.map PGM.imt = ["pga", "pga"] ∧
    (∀ p ∈ c6db.pgms, p.channel_id = 1) ∧
    ¬ (c6db.pgms.map PGM.imt).Nodup := by decide

/-- C6 amended: a later ingestion can never change or duplicate a
persisted measurement: as soon as the station window query finds an
existing station, the merge raises `AttributeError` (amps.py 304-305)
before any write, leaving the whole database unchanged. -/
theorem insert_amps_merge_aborts (now : Int) (doc : AmpDoc) (db : DB) (t : Int) (sid : Nat)
    (hroot : doc.rootTag = "amplitudes")
    (hdate : computePgmDate doc = .ok (some t))
    (hmatch : stationMatch db (effNetwork doc) doc.station.code t = some sid) :
    insert_amps now doc db =
      .error db "AttributeError: type object Station has no attribute station_id" := by
  simp only [insert_amps, hroot, hdate, hmatch]
  simp

/-- C6 witness for the amended claim. -/
theorem insert_amps_merge_aborts_witness :
    insert_amps 5 sampleDoc sampleDb1 =
      .error sampleDb1 "AttributeError: type object Station has no attribute station_id" :=
  insert_amps_merge_aborts 5 sampleDoc sampleDb1 sampleT 1 rfl (by decide) (by decide)

/-- C7: the selection rule picks the strictly-nearest matching live
station (first one on a tie), but the merge into the selected station
then raises `AttributeError` (amps.py 304-305) instead of merging. -/
theorem station_match_crash :
    stationMatch c7db "us" "ABC" 2000 = some 1 ∧
    stationMatch c7db "us" "ABC" 3000 = some 2 ∧
    stationMatch c7db "us" "ABC" 2500 = some 1 ∧
    insert_amps 9 c7doc c7db =
      .error c7db "AttributeError: type object Station has no attribute station_id" := by
  decide

/-- C8 witness. -/
theorem insert_amps_ok_no_empty_witness :
    DB.WF DB.empty ∧
    ((∀ ch ∈ sampleDb1.channels, ch.id ∉ DB.empty.channels.map Channel.id →
        ∃ p ∈ sampleDb1.pgms, p.channel_id = ch.id) ∧
     (∀ s ∈ sampleDb1.stations, s.id ∉ DB.empty.stations.map Station.id →
        ∃ ch ∈ sampleDb1.channels, ch.station_id = s.id)) :=
  ⟨by decide, insert_amps_ok_no_empty 0 sampleDoc DB.empty sampleDb1 (by decide) (by decide)⟩

/-- C9 counterexample: the stated time of `c9docA ".925Z"` carries a
925 ms fractional part, but the parsed record timestamp is the
whole-seconds value (the text is truncated to 19 characters before
either `strptime` format is tried); and `c9docB`'s collected 500 ms
`msec` field is ignored by the assembled path. -/
theorem pgmtime_fraction_dropped_cex :
    computePgmDate (c9docA ".925Z") = .ok (some (toMillis 2018 3 7 18 4 52 0)) ∧
    toMillis 2018 3 7 18 4 52 925 ≠ toMillis 2018 3 7 18 4 52 0 ∧
    computePgmDate c9docB = .ok (some (toMillis 2020 1 2 3 4 5 0)) ∧
    toMillis 2020 1 2 3 4 5 500 ≠ toMillis 2020 1 2 3 4 5 0 := by decide

theorem c9_parse (suffix : String) :
    parsePgmTimeText ("2018-03-07T18:04:52" ++ suffix) = .ok (toMillis 2018 3 7 18 4 52 0) := by
  have hdata : ("2018-03-07T18:04:52" ++ suffix).data.take 19 = "2018-03-07T18:04:52".data := by
    rw [String.data_append]
    have hlen : ("2018-03-07T18:04:52".data).length = 19 := rfl
    rw [← hlen, List.take_left]
  simp only [parsePgmTimeText]
  rw [hdata]
  decide

/-- C9 amended: the record timestamp is the stated time truncated to
whole seconds.  Whatever follows the 19-character whole-seconds prefix
of `PGMTime` (any fractional part included) is discarded before
parsing, and the assembled path uses the year-to-second fields only,
ignoring the collected `msec` field. -/
theorem pgmtime_truncation (suffix : String) :
    computePgmDate (c9docA suffix) = .ok (some (toMillis 2018 3 7 18 4 52 0)) ∧
    computePgmDate c9docB = .ok (some (toMillis 2020 1 2 3 4 5 0)) := by
  constructor
  · have hred : computePgmDate (c9docA suffix) =
        (parsePgmTimeText ("2018-03-07T18:04:52" ++ suffix)).bind
          (fun t => Except.ok (some t)) := rfl
    rw [hred, c9_parse suffix]
    rfl
  · decide

/-- C10: the repository's own descriptor shape (keys `lat` / `lon`) is
accepted on the create path but raises `KeyError: 'latitude'` on the
update path (amps.py 151 reads `eventdict['latitude']`, amps.py 164
reads `eventdict['lat']`), so no single flat descriptor shape with one
latitude key works on both paths. -/
theorem insert_event_key_mismatch :
    insert_event c10d1 DB.empty = .ok c10db1 ∧
    insert_event c10d2 c10db1 = .error "KeyError: latitude" ∧
    c10d2.lat.isSome ∧ c10d2.latitude.isNone := by decide

end AmpAssoc
